import Mathlib

/-!
Verification of the FastAPI LTI 1.3 contrib layer.

The definitions below are shallow embeddings of the Python sources:
* `SimpleCache` — `pylti1p3/contrib/fastapi/launch_data_storage/cache.py`
  (the identical class also appears in `examples/fastapi_example/api/main.py`);
* `FastAPISessionService`'s in-memory storage — `pylti1p3/contrib/fastapi/session.py`;
* `FastAPICookieService` — `pylti1p3/contrib/fastapi/cookie.py`;
* `FastAPIRequest.is_secure` — `pylti1p3/contrib/fastapi/request.py`;
* the example adapter `FastAPIRequest.get_param` —
  `examples/fastapi_example/pylti1p3/contrib/fastapi/request.py`;
* the example app's launch / deep-link handlers — `examples/fastapi_example/api/main.py`.

Wall-clock time (`time.time()`) is modelled as an explicit `Nat` argument `now`.
Python dictionaries keyed by strings are modelled as functions `String → Option _`.
-/

/-- `SimpleCache` state: the `_cache` dict of stored values and the `_expires`
dict of absolute expiration times, both keyed by string. -/
structure SimpleCache (α : Type u) where
  cache : String → Option α
  expires : String → Option Nat

namespace SimpleCache

/-- A fresh cache, as built by `SimpleCache.__init__`: both dicts empty. -/
def empty : SimpleCache α := ⟨fun _ => none, fun _ => none⟩

/-- Dict update `d[key] = v`. -/
def upd (d : String → Option β) (key : String) (v : β) : String → Option β :=
  fun k => if k = key then some v else d k

/-- Dict removal `d.pop(key, None)` (the state change; the returned value is unused). -/
def popKey (d : String → Option β) (key : String) : String → Option β :=
  fun k => if k = key then none else d k

/-- `SimpleCache.get(key)`: if the key has a recorded expiration and
`time.time() > expires[key]`, pop the key from both dicts and return `None`;
otherwise return `_cache.get(key)`.  Returns the value and the
(possibly cleaned-up) cache state. -/
def get (now : Nat) (key : String) (c : SimpleCache α) : Option α × SimpleCache α :=
  match c.expires key with
  | some exp =>
      if exp < now then
        (none, ⟨popKey c.cache key, popKey c.expires key⟩)
      else
        (c.cache key, c)
  | none => (c.cache key, c)

/-- Python truthiness of the `timeout: int = None` argument:
`None` and `0` are falsy, any nonzero int is truthy. -/
def timeoutTruthy : Option Nat → Bool
  | none => false
  | some t => t != 0

/-- `SimpleCache.set(key, value, timeout)`: store the value; if `timeout` is
truthy record `expires[key] = time.time() + timeout`, otherwise pop any
recorded expiration for the key. -/
def set (key : String) (value : α) (timeout : Option Nat) (now : Nat)
    (c : SimpleCache α) : SimpleCache α :=
  if timeoutTruthy timeout then
    ⟨upd c.cache key value, upd c.expires key (now + timeout.getD 0)⟩
  else
    ⟨upd c.cache key value, popKey c.expires key⟩

/-- `SimpleCache.delete(key)`: pop the key from both dicts. -/
def delete (key : String) (c : SimpleCache α) : SimpleCache α :=
  ⟨popKey c.cache key, popKey c.expires key⟩

end SimpleCache

/-- Modelled from the spec: the core library's `validate()` consumes a
`PendingLogin` by "a get followed by a delete of the state key on the launch
data store"; absent (or expired) state is a `SecurityError`
("invalid or expired state").  Only the store operations are in `src/`; this
driver realises the get-then-delete sequence the spec describes.  Returns the
consumed value (or an error) together with the resulting store state. -/
def consumePendingLogin (now : Nat) (state : String) (c : SimpleCache α) :
    Except String α × SimpleCache α :=
  match SimpleCache.get now state c with
  | (some pl, c') => (Except.ok pl, SimpleCache.delete state c')
  | (none, c') => (Except.error "invalid or expired state", c')

/-- The in-memory storage of `FastAPISessionService`
(`pylti1p3/contrib/fastapi/session.py`): the `_storage` dict of values and
the `_expirations` dict of absolute expiration times. -/
structure FastAPISession (α : Type u) where
  storage : String → Option α
  expirations : String → Option Nat

namespace FastAPISession

/-- Whether `_cleanup_expired` classifies a key as expired at time `now`:
its recorded expiration satisfies `exp < current_time`. -/
def keyExpired (now : Nat) (s : FastAPISession α) (k : String) : Bool :=
  match s.expirations k with
  | some exp => exp < now
  | none => false

/-- `_cleanup_expired`: pop every key whose expiration is strictly earlier
than the current time from both dicts. -/
def cleanupExpired (now : Nat) (s : FastAPISession α) : FastAPISession α :=
  ⟨fun k => if keyExpired now s k then none else s.storage k,
   fun k => if keyExpired now s k then none else s.expirations k⟩

/-- `_get_value`: call `_cleanup_expired`, then return `_storage.get(key)`.
Returns the value together with the purged session state. -/
def getValue (now : Nat) (key : String) (s : FastAPISession α) :
    Option α × FastAPISession α :=
  ((cleanupExpired now s).storage key, cleanupExpired now s)

/-- `_set_value`: call `_cleanup_expired`, then store the value and record
`time.time() + self._launch_data_lifetime` as its expiration. -/
def setValue (now lifetime : Nat) (key : String) (v : α) (s : FastAPISession α) :
    FastAPISession α :=
  let s' := cleanupExpired now s
  ⟨SimpleCache.upd s'.storage key v, SimpleCache.upd s'.expirations key (now + lifetime)⟩

end FastAPISession

/-- Process-level state for `launch_data_storage/cache.py`: the module-global
`_shared_cache` (a reference into a heap of allocated `SimpleCache`
instances, `None` until first use), the heap itself, and the next fresh
reference. -/
structure ProcessState (α : Type u) where
  sharedCache : Option Nat
  heap : Nat → SimpleCache α
  nextRef : Nat

/-- Heap update at one reference. -/
def updHeap (h : Nat → SimpleCache α) (r : Nat) (c : SimpleCache α) :
    Nat → SimpleCache α :=
  fun r' => if r' = r then c else h r'

/-- `FastAPICacheDataStorage.__init__(cache=None)`: with an explicit cache
argument use it; otherwise use the module-global `_shared_cache`, allocating
a fresh `SimpleCache()` and storing it in the global only when the global is
still `None`.  Returns the reference to the backing cache of the constructed
storage, together with the updated process state. -/
def mkCacheDataStorage (cacheArg : Option Nat) (p : ProcessState α) :
    Nat × ProcessState α :=
  match cacheArg with
  | some c => (c, p)
  | none =>
      match p.sharedCache with
      | some s => (s, p)
      | none =>
          (p.nextRef,
           ⟨some p.nextRef, updHeap p.heap p.nextRef SimpleCache.empty, p.nextRef + 1⟩)

/-- A `set` performed through a storage backed by heap reference `r`. -/
def storageSet (r : Nat) (key : String) (v : α) (timeout : Option Nat) (now : Nat)
    (p : ProcessState α) : ProcessState α :=
  { p with heap := updHeap p.heap r (SimpleCache.set key v timeout now (p.heap r)) }

/-- A `get` performed through a storage backed by heap reference `r`
(the observed value). -/
def storageGet (r : Nat) (key : String) (now : Nat) (p : ProcessState α) : Option α :=
  (SimpleCache.get now key (p.heap r)).1

/-- A value stored in a Python keyword-argument dict (only strings, booleans
and ints occur in `cookie.py`). -/
inductive AttrVal where
  | s : String → AttrVal
  | b : Bool → AttrVal
  | n : Nat → AttrVal
deriving DecidableEq

/-- Python dict assignment `d[key] = v` on an insertion-ordered dict
represented as an association list: replace in place when the key exists,
append otherwise. -/
def dictInsert (d : List (String × AttrVal)) (key : String) (v : AttrVal) :
    List (String × AttrVal) :=
  if d.any (fun p => p.1 == key) then
    d.map (fun p => if p.1 == key then (key, v) else p)
  else
    d ++ [(key, v)]

/-- Dict lookup `d[key]` (first — and, keys being unique, only — binding). -/
def dictGet (d : List (String × AttrVal)) (key : String) : Option AttrVal :=
  (d.find? (fun p => p.1 == key)).map (fun p => p.2)

/-- The fastapi `Request` as consumed by `cookie.py` and `request.py`:
`request.url.scheme`, the header dict and the cookie dict. -/
structure ContribRequest where
  scheme : String
  headers : String → Option String
  cookies : String → Option String

/-- One entry of `FastAPICookieService._cookies_to_set`: the cookie value,
the `max_age`, and any additional keyword arguments passed to `set_cookie`. -/
structure CookieData where
  value : String
  maxAge : Nat
  extra : List (String × AttrVal)

/-- `FastAPICookieService` mutable state: the insertion-ordered
`_cookies_to_set` dict, keyed by the prefixed cookie key. -/
structure FastAPICookieService where
  cookiesToSet : List (String × CookieData)

namespace FastAPICookieService

/-- `_get_key`: the full cookie key `self._cookie_prefix + "-" + key`
(the prefix value is inherited from the core `CookieService` and passed
here explicitly). -/
def cookieKey (pfx key : String) : String := pfx ++ "-" ++ key

/-- Python dict assignment on the `_cookies_to_set` dict. -/
def storeCookie (d : List (String × CookieData)) (key : String) (cd : CookieData) :
    List (String × CookieData) :=
  if d.any (fun p => p.1 == key) then
    d.map (fun p => if p.1 == key then (key, cd) else p)
  else
    d ++ [(key, cd)]

/-- `set_cookie(name, value, exp, **kwargs)`: record the cookie under its
prefixed key. -/
def setCookie (pfx name value : String) (exp : Nat)
    (extra : List (String × AttrVal)) (svc : FastAPICookieService) :
    FastAPICookieService :=
  ⟨storeCookie svc.cookiesToSet (cookieKey pfx name) ⟨value, exp, extra⟩⟩

/-- The `cookie_kwargs` dict built by `update_response` for one stored
cookie: key, value and max_age, then `secure` from the request URL scheme,
`httponly=True`, `path="/"`, `samesite="None"` added only for HTTPS, and
finally every additional stored kwarg other than `value`/`max_age`. -/
def cookieKwargs (scheme key : String) (cd : CookieData) :
    List (String × AttrVal) :=
  let base : List (String × AttrVal) :=
    [("key", .s key), ("value", .s cd.value), ("max_age", .n cd.maxAge),
     ("secure", .b (scheme == "https")), ("httponly", .b true), ("path", .s "/")]
  let base := if scheme == "https" then dictInsert base "samesite" (.s "None") else base
  (cd.extra.filter (fun p => p.1 ≠ "value" ∧ p.1 ≠ "max_age")).foldl
    (fun d p => dictInsert d p.1 p.2) base

/-- `update_response(response)`: the list of `response.set_cookie(**kwargs)`
calls it performs, one keyword dict per stored cookie.  Only
`request.url.scheme` is consulted. -/
def updateResponse (req : ContribRequest) (svc : FastAPICookieService) :
    List (List (String × AttrVal)) :=
  svc.cookiesToSet.map (fun p => cookieKwargs req.scheme p.1 p.2)

end FastAPICookieService

/-- `FastAPIRequest.is_secure` (`pylti1p3/contrib/fastapi/request.py`): true
when the URL scheme is https, or the `X-Forwarded-Proto` header equals
"https", or the `X-Forwarded-Ssl` header is truthy and lowercases to "on". -/
def isSecure (r : ContribRequest) : Bool :=
  if r.scheme == "https" then true
  else if r.headers "X-Forwarded-Proto" == some "https" then true
  else
    match r.headers "X-Forwarded-Ssl" with
    | some fs => !fs.isEmpty && fs.toLower == "on"
    | none => false

/-- The fastapi `Request` as consumed by the example adapter
(`examples/fastapi_example/pylti1p3/contrib/fastapi/request.py`): the query
parameters, and the form data the adapter holds but `get_param` never reads. -/
structure ExampleRequest where
  queryParams : String → Option String
  formData : String → Option String

/-- The example adapter's `FastAPIRequest.get_param`: return the query
parameter when present, otherwise the empty string; form data is never
consulted. -/
def exampleGetParam (r : ExampleRequest) (key : String) : String :=
  match r.queryParams key with
  | some v => v
  | none => ""

/-- A fastapi `HTTPException` as raised by the example handlers. -/
structure HTTPError where
  statusCode : Nat
  detail : String
deriving DecidableEq

/-- The spec's launch-failure taxonomy, used to classify the exception a
launch validation raises. -/
inductive LaunchError where
  | securityError : String → LaunchError
  | validationError : String → LaunchError
  | configError : String → LaunchError
  | serviceUnavailable : String → LaunchError
deriving DecidableEq

/-- The message carried by a launch failure (`str(e)` in the handler). -/
def LaunchError.msg : LaunchError → String
  | .securityError m => m
  | .validationError m => m
  | .configError m => m
  | .serviceUnavailable m => m

/-- The `/api/launch` handler's outer exception mapping
(`examples/fastapi_example/api/main.py` lines 348-349, identically
`examples/fastapi_example/main.py` lines 210-211): any exception raised
inside the `try` block becomes
`HTTPException(status_code=400, detail=f"Launch failed: {str(e)}")`. -/
def launchEndpointResult (r : Except LaunchError α) : Except HTTPError α :=
  match r with
  | .ok a => .ok a
  | .error e => .error ⟨400, "Launch failed: " ++ e.msg⟩

/-- The launch message-type variants the spec classifies
(`{ResourceLinkRequest, DeepLinkingRequest, Unknown}`). -/
inductive MessageType where
  | resourceLinkRequest
  | deepLinkingRequest
  | unknown : String → MessageType
deriving DecidableEq

/-- The part of a validated launch the routing handlers inspect. -/
structure MessageLaunchData where
  messageType : MessageType
deriving DecidableEq

/-- Modelled from the spec: `is_deep_link_launch()` lives on the core
`MessageLaunch` class, which is not under `src/`; per the spec,
"message_type=DeepLinkingRequest routes to the deep-link branch and exposes
get_deep_link()". -/
def isDeepLinkLaunch (l : MessageLaunchData) : Bool :=
  l.messageType == .deepLinkingRequest

/-- Modelled from the spec: `is_resource_launch()` on the core
`MessageLaunch`, true exactly for `message_type=ResourceLinkRequest`. -/
def isResourceLaunch (l : MessageLaunchData) : Bool :=
  l.messageType == .resourceLinkRequest

/-- The branches of the `/api/launch` handler's type dispatch. -/
inductive LaunchBranch where
  | resourceBranch
  | deepLinkBranch
  | unknownBranch
deriving DecidableEq

/-- The `/api/launch` handler's dispatch
(`examples/fastapi_example/api/main.py` lines 296-308):
`is_resource_launch()` first, then `is_deep_link_launch()` (which returns the
character-selection deep-link response), else the unknown branch. -/
def launchRoute (l : MessageLaunchData) : LaunchBranch :=
  if isResourceLaunch l then .resourceBranch
  else if isDeepLinkLaunch l then .deepLinkBranch
  else .unknownBranch

/-- The `/api/configure_deep_link` handler
(`examples/fastapi_example/api/main.py` lines 404-418) after the launch is
rehydrated with `from_cache`: raise `HTTPException(400, "Must be a deep link
launch!")` unless `is_deep_link_launch()`, and only then call
`get_deep_link()` and build the deep-link response.  The second component
records which launch operations the handler invoked, in order. -/
def configureDeepLink (l : MessageLaunchData) :
    Except HTTPError Unit × List String :=
  if isDeepLinkLaunch l then
    (Except.ok (), ["from_cache", "is_deep_link_launch", "get_deep_link",
                    "response_builder"])
  else
    (Except.error ⟨400, "Must be a deep link launch!"⟩,
     ["from_cache", "is_deep_link_launch"])

/-- Program counter of one `validate()` call's store interaction, per the
spec's consume sequence: about to `get` the state key, about to `delete` it
(the get found a `PendingLogin`), or finished with the recorded outcome. -/
inductive TPhase where
  | beforeGet
  | beforeDelete
  | done : Bool → TPhase
deriving DecidableEq

/-- Two concurrent `validate()` calls sharing one launch data store. -/
structure TwoValidators (α : Type u) where
  store : SimpleCache α
  t1 : TPhase
  t2 : TPhase

/-- Modelled from the spec: one atomic store operation of a `validate()`
call's check-and-consume sequence ("a get-then-delete for PendingLogin").
A `get` that finds the `PendingLogin` proceeds to the `delete`; a `get` that
finds nothing fails; the `delete` completes the call successfully. -/
def stepValidator (now : Nat) (state : String) (ph : TPhase)
    (store : SimpleCache α) : TPhase × SimpleCache α :=
  match ph with
  | .beforeGet =>
      match SimpleCache.get now state store with
      | (some _, s') => (.beforeDelete, s')
      | (none, s') => (.done false, s')
  | .beforeDelete => (.done true, SimpleCache.delete state store)
  | .done ok => (.done ok, store)

/-- Run one scheduled step: `false` advances the first call, `true` the
second; both act on the shared store. -/
def stepSystem (now : Nat) (state : String) (sys : TwoValidators α)
    (tid : Bool) : TwoValidators α :=
  if tid then
    let (p, s) := stepValidator now state sys.t2 sys.store
    ⟨s, sys.t1, p⟩
  else
    let (p, s) := stepValidator now state sys.t1 sys.store
    ⟨s, p, sys.t2⟩

/-- Run a whole interleaving of the two calls' store operations. -/
def runSchedule (now : Nat) (state : String) (sched : List Bool)
    (sys : TwoValidators α) : TwoValidators α :=
  sched.foldl (stepSystem now state) sys

/-- A `get` on a key the value dict does not hold returns `None`, whatever
the expiration dict records. -/
theorem SimpleCache.get_fst_none_of_cache_none (now : Nat) (key : String)
    (c : SimpleCache α) (h : c.cache key = none) :
    (SimpleCache.get now key c).1 = none := by
  unfold SimpleCache.get
  rcases hexp : c.expires key with _ | exp
  · simpa using h
  · by_cases hlt : exp < now <;> simp [hlt, h]

/-- After `consumePendingLogin`, the value dict no longer holds the state
key: the success path deletes it, the expired path pops it, and the
not-found path never had it. -/
theorem consume_cache_none (now : Nat) (state : String) (c : SimpleCache α) :
    ((consumePendingLogin now state c).2).cache state = none := by
  unfold consumePendingLogin SimpleCache.get
  rcases hexp : c.expires state with _ | exp
  · rcases hc : c.cache state with _ | v
    · simp [hc]
    · simp [hc, SimpleCache.delete, SimpleCache.popKey]
  · by_cases hlt : exp < now
    · simp [hlt, SimpleCache.popKey]
    · rcases hc : c.cache state with _ | v
      · simp [hlt, hc]
      · simp [hlt, hc, SimpleCache.delete, SimpleCache.popKey]

/-- A consume whose `get` finds nothing reports the "invalid or expired
state" `SecurityError`. -/
theorem consume_fst_error_of_get_none (now : Nat) (key : String)
    (c : SimpleCache α) (h : (SimpleCache.get now key c).1 = none) :
    (consumePendingLogin now key c).1 = Except.error "invalid or expired state" := by
  unfold consumePendingLogin
  rcases hget : SimpleCache.get now key c with ⟨v, c'⟩
  rw [hget] at h
  simp at h
  subst h
  rfl

/-- C1: deleting a key makes the next `get` return `None`; consequently a
second `validate()`-style consume of the same state after a first consume
(successful or not) fails with the "invalid or expired state"
`SecurityError`. -/
theorem delete_blocks_state_replay (c : SimpleCache α) (key : String)
    (now now' : Nat) :
    (SimpleCache.get now' key (SimpleCache.delete key c)).1 = none ∧
    (consumePendingLogin now' key ((consumePendingLogin now key c).2)).1 =
      Except.error "invalid or expired state" := by
  constructor
  · exact SimpleCache.get_fst_none_of_cache_none now' key _ (by
      simp [SimpleCache.delete, SimpleCache.popKey])
  · exact consume_fst_error_of_get_none now' key _
      (SimpleCache.get_fst_none_of_cache_none now' key _
        (consume_cache_none now key c))

/-- C3: a recorded expiration strictly earlier than the current time makes
the key behave as absent: `SimpleCache.get` returns `None` and pops the
entry from both dicts, and `FastAPISessionService._get_value` purges the key
and returns `None`. -/
theorem expired_key_treated_as_absent (c : SimpleCache α) (s : FastAPISession β)
    (key : String) (now e e' : Nat) (hc : c.expires key = some e)
    (hlt : e < now) (hs : s.expirations key = some e') (hlt' : e' < now) :
    (SimpleCache.get now key c).1 = none ∧
    ((SimpleCache.get now key c).2).cache key = none ∧
    ((SimpleCache.get now key c).2).expires key = none ∧
    (FastAPISession.getValue now key s).1 = none ∧
    ((FastAPISession.getValue now key s).2).storage key = none ∧
    ((FastAPISession.getValue now key s).2).expirations key = none := by
  refine ⟨?_, ?_, ?_, ?_, ?_, ?_⟩ <;>
    simp [SimpleCache.get, hc, hlt, SimpleCache.popKey,
      FastAPISession.getValue, FastAPISession.cleanupExpired,
      FastAPISession.keyExpired, hs, hlt']

/-- Witness for C3 at a concrete expired entry. -/
theorem expired_key_treated_as_absent_witness :
    (SimpleCache.get 10 "state"
        (⟨fun k => if k = "state" then some "pl" else none,
          fun k => if k = "state" then some 5 else none⟩ : SimpleCache String)).1
      = none ∧
    ((SimpleCache.get 10 "state"
        (⟨fun k => if k = "state" then some "pl" else none,
          fun k => if k = "state" then some 5 else none⟩ : SimpleCache String)).2).cache
        "state" = none ∧
    ((SimpleCache.get 10 "state"
        (⟨fun k => if k = "state" then some "pl" else none,
          fun k => if k = "state" then some 5 else none⟩ : SimpleCache String)).2).expires
        "state" = none ∧
    (FastAPISession.getValue 10 "state"
        (⟨fun k => if k = "state" then some "pl" else none,
          fun k => if k = "state" then some 5 else none⟩ : FastAPISession String)).1
      = none ∧
    ((FastAPISession.getValue 10 "state"
        (⟨fun k => if k = "state" then some "pl" else none,
          fun k => if k = "state" then some 5 else none⟩ : FastAPISession String)).2).storage
        "state" = none ∧
    ((FastAPISession.getValue 10 "state"
        (⟨fun k => if k = "state" then some "pl" else none,
          fun k => if k = "state" then some 5 else none⟩ : FastAPISession String)).2).expirations
        "state" = none :=
  expired_key_treated_as_absent _ _ "state" 10 5 5 (by simp) (by decide)
    (by simp) (by decide)

/-- C6: a `set` with a positive timeout followed, at or before the recorded
expiration time and with no intervening write or delete, by a `get` of the
same key returns exactly the stored value. -/
theorem set_get_roundtrip (c : SimpleCache α) (key : String) (v : α)
    (t now now' : Nat) (ht : 0 < t) (hnow : now' ≤ now + t) :
    (SimpleCache.get now' key (SimpleCache.set key v (some t) now c)).1 = some v := by
  have htr : SimpleCache.timeoutTruthy (some t) = true := by
    simp [SimpleCache.timeoutTruthy]
    omega
  have hnlt : ¬ (now + t < now') := by omega
  simp [SimpleCache.set, htr, SimpleCache.get, SimpleCache.upd, hnlt]

/-- Witness for C6: a launch record stored for 600 seconds is still readable
at the deadline. -/
theorem set_get_roundtrip_witness :
    (SimpleCache.get 600 "launch-id"
        (SimpleCache.set "launch-id" "claims" (some 600) 0
          (SimpleCache.empty : SimpleCache String))).1 = some "claims" :=
  set_get_roundtrip SimpleCache.empty "launch-id" "claims" 600 0 600
    (by decide) (by decide)

/-- C8: a `set` with timeout `0` is the very same state transformation as a
`set` with timeout `None`: it stores the value, pops any recorded expiration
for the key, and every later `get` of the key returns the value. -/
theorem set_timeout_zero_never_expires (c : SimpleCache α) (key : String)
    (v : α) (now : Nat) :
    SimpleCache.set key v (some 0) now c = SimpleCache.set key v none now c ∧
    (SimpleCache.set key v (some 0) now c).expires key = none ∧
    ∀ now', (SimpleCache.get now' key (SimpleCache.set key v (some 0) now c)).1
      = some v := by
  refine ⟨rfl, by simp [SimpleCache.set, SimpleCache.timeoutTruthy, SimpleCache.popKey],
    fun now' => ?_⟩
  simp [SimpleCache.set, SimpleCache.timeoutTruthy, SimpleCache.get,
    SimpleCache.upd, SimpleCache.popKey]

/-- C5: constructing `FastAPICacheDataStorage` twice without an explicit
cache argument yields the one shared store — the same backing instance, with
no second allocation — so a `set` through the first storage is observed by a
`get` through the second. -/
theorem shared_cache_one_instance (p : ProcessState α) (key : String) (v : α)
    (now now' : Nat) :
    (mkCacheDataStorage none (mkCacheDataStorage none p).2).1 =
      (mkCacheDataStorage none p).1 ∧
    (mkCacheDataStorage none (mkCacheDataStorage none p).2).2 =
      (mkCacheDataStorage none p).2 ∧
    storageGet (mkCacheDataStorage none (mkCacheDataStorage none p).2).1 key now'
        (storageSet (mkCacheDataStorage none p).1 key v none now
          (mkCacheDataStorage none (mkCacheDataStorage none p).2).2) = some v := by
  rcases h : p.sharedCache with _ | s <;>
    simp [mkCacheDataStorage, h, storageGet, storageSet, updHeap,
      SimpleCache.set, SimpleCache.timeoutTruthy, SimpleCache.get,
      SimpleCache.upd, SimpleCache.popKey]

/-- C4 counterexample: a security failure (an invalid or expired state)
surfaces from the launch endpoint as HTTP 400, which is neither 401 nor
403. -/
theorem launch_security_failure_gets_400 :
    launchEndpointResult
        (Except.error (LaunchError.securityError "invalid or expired state") :
          Except LaunchError Unit) =
      Except.error ⟨400, "Launch failed: invalid or expired state"⟩ ∧
    (400 : Nat) ≠ 401 ∧ (400 : Nat) ≠ 403 :=
  ⟨rfl, by decide, by decide⟩

/-- C4 amended: the launch endpoint maps every launch failure — security,
validation, configuration and service failures alike — to HTTP status 400
with detail "Launch failed: " followed by the exception message. -/
theorem launch_failure_always_400 (e : LaunchError) :
    launchEndpointResult (Except.error e : Except LaunchError Unit) =
      Except.error ⟨400, "Launch failed: " ++ e.msg⟩ :=
  rfl

/-- C7: a `DeepLinkingRequest` launch routes to the deep-link branch and
exposes `get_deep_link()`, while the deep-link configuration handler rejects
every non-deep-link launch with HTTP 400 without ever invoking
`get_deep_link()` or the response builder. -/
theorem deep_link_routing_and_guard (l l' : MessageLaunchData)
    (h : l'.messageType ≠ MessageType.deepLinkingRequest) :
    (l.messageType = MessageType.deepLinkingRequest →
      isDeepLinkLaunch l = true ∧ launchRoute l = LaunchBranch.deepLinkBranch) ∧
    (configureDeepLink l').1 = Except.error ⟨400, "Must be a deep link launch!"⟩ ∧
    "get_deep_link" ∉ (configureDeepLink l').2 ∧
    "response_builder" ∉ (configureDeepLink l').2 := by
  have hdl : isDeepLinkLaunch l' = false := by
    simp [isDeepLinkLaunch]
    exact h
  refine ⟨fun hl => ?_, ?_, ?_, ?_⟩ <;>
    simp [isDeepLinkLaunch, launchRoute, isResourceLaunch, configureDeepLink, hdl, *]

/-- Witness for C7: a deep-linking launch is routed to the deep-link branch
and a resource-link launch is rejected by the configuration endpoint. -/
theorem deep_link_routing_and_guard_witness :
    isDeepLinkLaunch ⟨MessageType.deepLinkingRequest⟩ = true ∧
    launchRoute ⟨MessageType.deepLinkingRequest⟩ = LaunchBranch.deepLinkBranch ∧
    (configureDeepLink ⟨MessageType.resourceLinkRequest⟩).1 =
      Except.error ⟨400, "Must be a deep link launch!"⟩ := by
  obtain ⟨h1, h2, _⟩ := deep_link_routing_and_guard
    ⟨MessageType.deepLinkingRequest⟩ ⟨MessageType.resourceLinkRequest⟩ (by decide)
  exact ⟨(h1 rfl).1, (h1 rfl).2, h2⟩

/-- C2 failing interleaving: with one pending login stored under `"s"`, the
schedule where both calls `get` before either `delete` makes both concurrent
`validate()` consumes succeed — the check-and-consume is not atomic. -/
theorem both_validators_succeed_on_interleaving :
    (runSchedule 1 "s" [false, true, false, true]
        (⟨SimpleCache.set "s" 0 none 0 (SimpleCache.empty : SimpleCache Nat),
          TPhase.beforeGet, TPhase.beforeGet⟩ : TwoValidators Nat)).t1 =
      TPhase.done true ∧
    (runSchedule 1 "s" [false, true, false, true]
        (⟨SimpleCache.set "s" 0 none 0 (SimpleCache.empty : SimpleCache Nat),
          TPhase.beforeGet, TPhase.beforeGet⟩ : TwoValidators Nat)).t2 =
      TPhase.done true :=
  ⟨rfl, rfl⟩

/-- Python dict assignment on `_cookies_to_set` preserves "no extra kwargs
stored" when the inserted entry has none. -/
theorem storeCookie_extra_nil (d : List (String × CookieData)) (key : String)
    (cd : CookieData) (hd : ∀ p ∈ d, (p.2).extra = []) (hcd : cd.extra = []) :
    ∀ p ∈ FastAPICookieService.storeCookie d key cd, (p.2).extra = [] := by
  unfold FastAPICookieService.storeCookie
  split
  · intro p hp
    obtain ⟨q, hq, hpq⟩ := List.mem_map.mp hp
    by_cases hk : q.1 == key
    · rw [if_pos hk] at hpq
      rw [← hpq]
      exact hcd
    · rw [if_neg hk] at hpq
      rw [← hpq]
      exact hd q hq
  · intro p hp
    rcases List.mem_append.mp hp with hin | hin
    · exact hd p hin
    · simp at hin
      rw [hin]
      exact hcd

/-- Every cookie recorded by a sequence of `set_cookie` calls made without
additional keyword arguments is stored with no extra kwargs. -/
theorem foldl_setCookie_extra_nil (pfx : String)
    (calls : List (String × String × Nat)) (svc : FastAPICookieService)
    (h : ∀ p ∈ svc.cookiesToSet, (p.2).extra = []) :
    ∀ p ∈ (calls.foldl
        (fun s c => FastAPICookieService.setCookie pfx c.1 c.2.1 c.2.2 [] s)
        svc).cookiesToSet, (p.2).extra = [] := by
  induction calls generalizing svc with
  | nil => exact h
  | cons c cs ih =>
      exact ih _ (storeCookie_extra_nil _ _ _ h rfl)

/-- The keyword dict `update_response` builds for a cookie stored with no
extra kwargs: `httponly` is true, `path` is "/", `secure` holds exactly for
the https scheme, and `samesite` is "None" exactly for the https scheme. -/
theorem cookieKwargs_attrs (scheme key : String) (cd : CookieData)
    (hcd : cd.extra = []) :
    dictGet (FastAPICookieService.cookieKwargs scheme key cd) "httponly" =
      some (.b true) ∧
    dictGet (FastAPICookieService.cookieKwargs scheme key cd) "path" =
      some (.s "/") ∧
    dictGet (FastAPICookieService.cookieKwargs scheme key cd) "secure" =
      some (.b (scheme == "https")) ∧
    dictGet (FastAPICookieService.cookieKwargs scheme key cd) "samesite" =
      (if scheme == "https" then some (.s "None") else none) := by
  by_cases hs : (scheme == "https") = true <;>
    simp [FastAPICookieService.cookieKwargs, hcd, hs, dictInsert, dictGet,
      List.find?]

/-- C9: every cookie emitted by `update_response` for cookies registered via
`set_cookie` (which the library calls with no extra kwargs) carries
`httponly=True` and `path="/"`, and carries `secure=True` together with
`samesite="None"` exactly when the request URL scheme is https; the emitted
attributes are independent of the request headers (and cookies), even though
`X-Forwarded-Proto` makes `is_secure()` return true. -/
theorem cookie_attrs_from_scheme_only (pfx scheme : String)
    (hdr hdr' ck ck' : String → Option String)
    (calls : List (String × String × Nat)) :
    (∀ kw ∈ FastAPICookieService.updateResponse ⟨scheme, hdr, ck⟩
        (calls.foldl
          (fun s c => FastAPICookieService.setCookie pfx c.1 c.2.1 c.2.2 [] s)
          ⟨[]⟩),
      dictGet kw "httponly" = some (.b true) ∧
      dictGet kw "path" = some (.s "/") ∧
      dictGet kw "secure" = some (.b (scheme == "https")) ∧
      dictGet kw "samesite" = (if scheme == "https" then some (.s "None") else none)) ∧
    FastAPICookieService.updateResponse ⟨scheme, hdr, ck⟩
        (calls.foldl
          (fun s c => FastAPICookieService.setCookie pfx c.1 c.2.1 c.2.2 [] s)
          ⟨[]⟩) =
      FastAPICookieService.updateResponse ⟨scheme, hdr', ck'⟩
        (calls.foldl
          (fun s c => FastAPICookieService.setCookie pfx c.1 c.2.1 c.2.2 [] s)
          ⟨[]⟩) ∧
    (hdr "X-Forwarded-Proto" = some "https" → isSecure ⟨scheme, hdr, ck⟩ = true) := by
  refine ⟨?_, rfl, fun hX => ?_⟩
  · intro kw hkw
    obtain ⟨p, hp, hpkw⟩ := List.mem_map.mp hkw
    have hex : (p.2).extra = [] :=
      foldl_setCookie_extra_nil pfx calls ⟨[]⟩ (by simp) p hp
    rw [← hpkw]
    exact cookieKwargs_attrs scheme p.1 p.2 hex
  · by_cases hs : (scheme == "https") = true <;> simp [isSecure, hs, hX]

/-- Header map used by the C9 witness: a proxied request advertising
`X-Forwarded-Proto: https`. -/
def forwardedHttpsHeaders : String → Option String :=
  fun k => if k = "X-Forwarded-Proto" then some "https" else none

/-- Witness for C9: over plain http behind an https-advertising proxy the
stored state cookie is emitted without `secure` and without `samesite`, yet
with `httponly` and `path="/"`, while `is_secure()` returns true. -/
theorem cookie_attrs_from_scheme_only_witness :
    dictGet (FastAPICookieService.cookieKwargs "http" "lti1p3-state"
        ⟨"S", 3600, []⟩) "httponly" = some (.b true) ∧
    dictGet (FastAPICookieService.cookieKwargs "http" "lti1p3-state"
        ⟨"S", 3600, []⟩) "path" = some (.s "/") ∧
    dictGet (FastAPICookieService.cookieKwargs "http" "lti1p3-state"
        ⟨"S", 3600, []⟩) "secure" = some (.b false) ∧
    dictGet (FastAPICookieService.cookieKwargs "http" "lti1p3-state"
        ⟨"S", 3600, []⟩) "samesite" = none ∧
    isSecure ⟨"http", forwardedHttpsHeaders, fun _ => none⟩ = true := by
  obtain ⟨h1, _, h3⟩ := cookie_attrs_from_scheme_only "lti1p3" "http"
    forwardedHttpsHeaders forwardedHttpsHeaders (fun _ => none) (fun _ => none)
    [("state", "S", 3600)]
  obtain ⟨ha, hb, hc, hd⟩ := h1
    (FastAPICookieService.cookieKwargs "http" "lti1p3-state" ⟨"S", 3600, []⟩)
    (by simp [FastAPICookieService.updateResponse,
      FastAPICookieService.setCookie, FastAPICookieService.storeCookie,
      FastAPICookieService.cookieKey])
  exact ⟨ha, hb, by simpa using hc, by simpa using hd,
    h3 (by simp [forwardedHttpsHeaders])⟩

/-- C10: the example adapter's `get_param` returns the query parameter when
present and the empty string when absent; it never reads the form data, so
the result is invariant under changing it. -/
theorem get_param_query_only (qp fd fd' : String → Option String) (key : String) :
    (∀ v, qp key = some v → exampleGetParam ⟨qp, fd⟩ key = v) ∧
    (qp key = none → exampleGetParam ⟨qp, fd⟩ key = "") ∧
    exampleGetParam ⟨qp, fd⟩ key = exampleGetParam ⟨qp, fd'⟩ key := by
  refine ⟨fun v hv => ?_, fun hn => ?_, rfl⟩ <;> simp [exampleGetParam, *]

/-- Query map used by the C10 witness. -/
def stateQueryParams : String → Option String :=
  fun k => if k = "state" then some "S" else none

/-- Witness for C10: a present query parameter is returned verbatim and a
missing one yields the empty string. -/
theorem get_param_query_only_witness :
    exampleGetParam ⟨stateQueryParams, fun _ => none⟩ "state" = "S" ∧
    exampleGetParam ⟨stateQueryParams, fun _ => none⟩ "nonce" = "" :=
  ⟨(get_param_query_only stateQueryParams (fun _ => none) (fun _ => none)
      "state").1 "S" (by simp [stateQueryParams]),
   (get_param_query_only stateQueryParams (fun _ => none) (fun _ => none)
      "nonce").2.1 (by simp [stateQueryParams])⟩
